import Mathlib

/-!
Verification of the travel-itinerary generator (`Advanced_travel_agent.py`).

The development shallowly embeds the program's core logic:
the day-range chunking loop, the natural-language query construction,
the sequential chunked generation with its try/except failure policy,
the `SerperDevTool.search` retry/cache loop, and the
`generate_ics_content` day-marker extraction with Python date arithmetic.
Machine-level side effects (HTTP, the UI framework) are modelled as
explicit oracles and state records.
-/

/-! ## Day-range chunker (lines 139-142)

`range(1, num_days + 1, chunk_size)` with `chunk_size = 3`, and
`end_day = min(start_day + chunk_size - 1, num_days)`. -/

/-- Length of the Python sequence `range(start, stop, step)` for `step ≥ 1`
(Nat subtraction makes the empty case `start ≥ stop` yield 0). -/
def pyRangeLen (start stop step : Nat) : Nat :=
  (stop - start + step - 1) / step

/-- The Python sequence `range(start, stop, step)` for `step ≥ 1`. -/
def pyRange (start stop step : Nat) : List Nat :=
  (List.range (pyRangeLen start stop step)).map (fun i => start + step * i)

/-- `chunk_size = 3` (line 139). -/
def chunk_size : Nat := 3

/-- The day ranges produced by the chunking loop (lines 141-142):
for each `start_day` in `range(1, num_days + 1, chunk_size)`,
the pair `(start_day, min(start_day + chunk_size - 1, num_days))`. -/
def dayRanges (numDays : Nat) : List (Nat × Nat) :=
  (pyRange 1 (numDays + 1) chunk_size).map
    (fun s => (s, min (s + chunk_size - 1) numDays))

/-- A list of day ranges is a chain starting at `s`: each range begins exactly
where announced, is nonempty (`start ≤ end`), and the next range begins at
`end + 1` (contiguity and non-overlap in one pass). -/
def rangesChainedFrom : Nat → List (Nat × Nat) → Bool
  | _, [] => true
  | s, r :: rs => decide (r.1 = s) && decide (r.1 ≤ r.2) && rangesChainedFrom (r.2 + 1) rs

/-- All the range invariants claimed for `dayRanges n`: the ranges chain from
day 1, the final range ends exactly at `n`, every range has length at most 3,
and every end is `min (start + 2) n` (hence never exceeds `n`). -/
def rangesOk (n : Nat) : Bool :=
  let rs := dayRanges n
  rangesChainedFrom 1 rs &&
  decide ((rs.getLast?).map Prod.snd = some n) &&
  rs.all (fun r => decide (r.2 + 1 - r.1 ≤ 3) && decide (r.2 = min (r.1 + 2) n))

/-- Claim C1: for every `numDays` in [1,14] with `chunkSize = 3`, the chunking
loop produces day ranges that start at 1, are contiguous and non-overlapping,
each have length at most 3, and end exactly at `numDays` with
`end_day = min (start_day + chunkSize - 1) numDays`; in particular
`numDays = 1` yields exactly the single range `(1, 1)`. -/
theorem chunking_ranges_ok :
    (∀ n : Nat, 1 ≤ n → n ≤ 14 → rangesOk n = true) ∧ dayRanges 1 = [(1, 1)] := by
  constructor
  · intro n h1 h2
    interval_cases n <;> decide
  · decide

/-- Witness for `chunking_ranges_ok` at `numDays = 5`. -/
theorem chunking_ranges_ok_witness : rangesOk 5 = true :=
  chunking_ranges_ok.1 5 (by decide) (by decide)

/-! ## Day-marker regular expression (lines 65-69)

`(?:##\s*)?Day\s*(\d+)[\s–:]*([\s\S]*?)(?=(?:##\s*)?Day\s*\d+|$)` with
`re.IGNORECASE`, embedded as an explicit left-to-right scanner over
`List Char` following Python backtracking semantics.  The lazy body group
always succeeds (via `$`), so a match begins wherever the marker prefix
`(?:##\s*)?Day\s*\d+` matches, and the body extends to the next such
position or the end of the text. -/

/-- The Python regex class `\s` on text (ASCII whitespace plus the Unicode
space and line separators Python includes). -/
def isSpaceChar (c : Char) : Bool :=
  c = ' ' || c = '\t' || c = '\n' || c = '\x0b' || c = '\x0c' || c = '\r' ||
  c = '\x1c' || c = '\x1d' || c = '\x1e' || c = '\x1f' || c = '\x85' ||
  c = ' ' || c = ' ' || (' ' ≤ c && c ≤ ' ') ||
  c = ' ' || c = ' ' || c = ' ' || c = ' ' || c = '　'

/-- The regex class `\d` (decimal digits; the itinerary text uses ASCII). -/
def isDigitChar (c : Char) : Bool :=
  '0' ≤ c && c ≤ '9'

/-- The regex class `[\s–:]` separating the day number from the body. -/
def isSepChar (c : Char) : Bool :=
  isSpaceChar c || c = '–' || c = ':'

/-- Drop the maximal run matched by `\s*`. -/
def dropSpaces : List Char → List Char
  | [] => []
  | c :: cs => if isSpaceChar c then dropSpaces cs else c :: cs

/-- Drop the maximal run matched by `[\s–:]*`. -/
def dropSeps : List Char → List Char
  | [] => []
  | c :: cs => if isSepChar c then dropSeps cs else c :: cs

/-- Split off the maximal run matched by `\d+` (greedy). -/
def takeDigits : List Char → List Char × List Char
  | [] => ([], [])
  | c :: cs =>
      if isDigitChar c then
        let p := takeDigits cs
        (c :: p.1, p.2)
      else ([], c :: cs)

/-- Match the literal `Day` case-insensitively (regex fragment `Day` under
`re.IGNORECASE`) at the head; returns the remainder on success. -/
def matchDayCI : List Char → Option (List Char)
  | c1 :: c2 :: c3 :: rest =>
      if c1.toLower = 'd' && c2.toLower = 'a' && c3.toLower = 'y' then some rest
      else none
  | _ => none

/-- Regex fragment `Day\s*(\d+)` at the head: on success, returns the
captured digit run and the remainder after it. -/
def matchDayNum (s : List Char) : Option (List Char × List Char) :=
  match matchDayCI s with
  | none => none
  | some r1 =>
      let p := takeDigits (dropSpaces r1)
      if p.1.isEmpty then none else some p

/-- Full marker `(?:##\s*)?Day\s*(\d+)` at the head: the optional `##` heading
prefix is tried first (greedy `?`), falling back to the bare `Day` form,
exactly as Python backtracks. -/
def matchMarker (s : List Char) : Option (List Char × List Char) :=
  match s with
  | '#' :: '#' :: rest =>
      (match matchDayNum (dropSpaces rest) with
       | some p => some p
       | none => matchDayNum s)
  | _ => matchDayNum s

/-- Lazy capture `([\s\S]*?)` bounded by the lookahead
`(?=(?:##\s*)?Day\s*\d+|$)`: take characters until the first position where
the marker matches, or the end of the text.  Returns (body, remainder). -/
def scanBody : List Char → List Char × List Char
  | [] => ([], [])
  | c :: cs =>
      if (matchMarker (c :: cs)).isSome then ([], c :: cs)
      else
        let p := scanBody cs
        (c :: p.1, p.2)

/-- One step of `day_pattern.findall` driven by fuel (each produced match
consumes at least the four characters `Day` + one digit, so fuel equal to
the text length never runs out). -/
def findDaysAux : Nat → List Char → List (List Char × List Char)
  | 0, _ => []
  | fuel + 1, s =>
      match s with
      | [] => []
      | c :: cs =>
          match matchMarker (c :: cs) with
          | some (ds, rest) =>
              let p := scanBody (dropSeps rest)
              (ds, p.1) :: findDaysAux fuel p.2
          | none => findDaysAux fuel cs

/-- `day_pattern.findall(plan_text)` (line 69): the list of
(captured digit run, captured body) pairs, in match order. -/
def findDays (plan : List Char) : List (List Char × List Char) :=
  findDaysAux plan.length plan

/-- Whether the text contains a day marker anywhere (decidable marker test
used to state the no-marker case). -/
def hasMarker : List Char → Bool
  | [] => false
  | c :: cs => (matchMarker (c :: cs)).isSome || hasMarker cs

/-! ## Python date arithmetic (lines 58-76)

`datetime.date` is embedded by its proleptic-Gregorian ordinal
(`date.toordinal`, day 1 = 0001-01-01); adding a `timedelta` of `d` days
adds `d` to the ordinal, and raises `OverflowError` when the result leaves
`[date.min.toordinal(), date.max.toordinal()] = [1, 3652059]`. -/

/-- `datetime.date(y, m, d).toordinal()` for the proleptic Gregorian
calendar (days-from-civil algorithm, shifted so 0001-01-01 is day 1);
valid for the years `1 ≤ y` used here. -/
def civilOrdinal (y m d : Nat) : Nat :=
  let yy := if m ≤ 2 then y - 1 else y
  let era := yy / 400
  let yoe := yy % 400
  let mp := if 2 < m then m - 3 else m + 9
  let doy := (153 * mp + 2) / 5 + d - 1
  let doe := yoe * 365 + yoe / 4 - yoe / 100 + doy
  era * 146097 + doe - 305

/-- The ordinal of a civil date as an integer (Python dates live in
`Int` ordinals in this embedding). -/
def pyOrd (y m d : Nat) : Int :=
  (civilOrdinal y m d : Int)

/-- `datetime.min.date().toordinal()` = `date(1, 1, 1).toordinal()`. -/
def pyMinOrdinal : Int := 1

/-- `datetime.max.date().toordinal()` = `date(9999, 12, 31).toordinal()`. -/
def pyMaxOrdinal : Int := 3652059

/-- Numeric value of a captured digit run (`int(d_num)`). -/
def digitsVal (ds : List Char) : Nat :=
  ds.foldl (fun acc c => 10 * acc + (c.toNat - Char.toNat '0')) 0

/-- Python `str.strip()`: drop leading and trailing whitespace. -/
def stripList (s : List Char) : List Char :=
  ((s.dropWhile isSpaceChar).reverse.dropWhile isSpaceChar).reverse

/-- One calendar event as built in the loop at lines 71-77: summary,
description, and the date-only `dtstart` / `dtend` as Python ordinals. -/
structure CalEvent where
  summary : String
  description : String
  dtstart : Int
  dtend : Int
  deriving DecidableEq, Repr

/-- The body of the loop at lines 71-77 for one match `(d_num, content)`:
`dtstart = start_dt + timedelta(days=int(d_num)-1)` and
`dtend = start_dt + timedelta(days=int(d_num))`, each raising
(`Except.error`) if the date arithmetic overflows the Python date range. -/
def mkEvent (startOrd : Int) (destination : String) (m : List Char × List Char) :
    Except String CalEvent :=
  let k : Int := (digitsVal m.1 : Int)
  let ds := startOrd + (k - 1)
  let de := startOrd + k
  if ds < pyMinOrdinal || pyMaxOrdinal < ds then Except.error ("date value out of range")
  else if de < pyMinOrdinal || pyMaxOrdinal < de then Except.error ("date value out of range")
  else Except.ok
    { summary := "Day " ++ String.mk m.1 ++ " in " ++ destination,
      description := String.mk (stripList m.2),
      dtstart := ds, dtend := de }

/-- The whole event loop at lines 71-77: events are built in match order and
the first raised exception aborts the loop. -/
def buildEvents (startOrd : Int) (destination : String) :
    List (List Char × List Char) → Except String (List CalEvent)
  | [] => Except.ok []
  | m :: ms =>
      match mkEvent startOrd destination m with
      | Except.error e => Except.error e
      | Except.ok ev =>
          match buildEvents startOrd destination ms with
          | Except.error e => Except.error e
          | Except.ok evs => Except.ok (ev :: evs)

/-- `generate_ics_content` (lines 58-82): on success returns the calendar
(modelled as its event list) and no warning; on any exception returns no
calendar data and the warning text shown by `st.warning`. -/
def generate_ics_content (plan_text : String) (startOrd : Int) (destination : String) :
    Option (List CalEvent) × Option String :=
  match buildEvents startOrd destination (findDays plan_text.data) with
  | Except.ok evs => (some evs, none)
  | Except.error e => (none, some ("ICS generation failed: " ++ e))

/-! ## Search client `SerperDevTool.search` (lines 26-56)

The HTTP transport is an oracle `net : Nat → Except String Organic`
giving, per attempt index, either the parsed JSON body's `organic` field
(`none` when the key is absent) or the exception text of a non-2xx
response / network failure.  The method's cache is an association list
keyed by the literal query string. -/

/-- The `organic` array of a successful response: `(title, snippet, link)`
triples, or `none` when the response has no `organic` key. -/
abbrev Organic := Option (List (String × String × String))

/-- Lines 44-51: the plain-text normalization of a successful response,
`"\n\n".join(f"{title}\n{snippet}\n{link}" for each organic item)`;
an absent `organic` key leaves the join empty. -/
def searchResultText (organic : Organic) : String :=
  match organic with
  | none => ""
  | some items =>
      String.intercalate ("\n\n") (items.map (fun t => t.1 ++ "\n" ++ t.2.1 ++ "\n" ++ t.2.2))

/-- Outcome of the attempt loop: the value the method returns (`none` models
Python falling off the loop and returning `None`), the value stored in the
cache if any, and the number of network requests issued. -/
structure SearchOutcome where
  ret : Option String
  cached : Option String
  calls : Nat
  deriving DecidableEq, Repr

/-- The attempt list `range(retries)`: `[0, …, retries-1]`, empty when
`retries ≤ 0`. -/
def attemptList (retries : Int) : List Nat :=
  List.range retries.toNat

/-- The loop body at lines 39-56, one recursion step per `attempt` value:
a successful request normalizes, caches and returns; a failing request
returns the aggregate failure string when `attempt == retries - 1` and
otherwise continues with the next attempt. -/
def searchLoop (net : Nat → Except String Organic) (retries : Int) :
    List Nat → SearchOutcome
  | [] => { ret := none, cached := none, calls := 0 }
  | attempt :: restAttempts =>
      match net attempt with
      | Except.ok organic =>
          let result := searchResultText organic
          { ret := some result, cached := some result, calls := 1 }
      | Except.error e =>
          if (attempt : Int) = retries - 1 then
            { ret := some ("Search failed after " ++ toString retries ++ " attempts: " ++ e),
              cached := none, calls := 1 }
          else
            let o := searchLoop net retries restAttempts
            { o with calls := o.calls + 1 }

/-- The memoization dictionary `self.cache` (line 30), as an association
list with the most recent insertion shadowing. -/
structure SearchState where
  cache : List (String × String)
  deriving DecidableEq, Repr

/-- Dictionary lookup `query in self.cache` / `self.cache[query]`. -/
def lookupCache : List (String × String) → String → Option String
  | [], _ => none
  | kv :: rest, q => if kv.1 = q then some kv.2 else lookupCache rest q

/-- `SerperDevTool.search(query, retries)` (lines 32-56): returns the value
the method returns (`none` = Python `None`), the updated cache state, and
the number of network requests issued. -/
def search (net : Nat → Except String Organic) (st : SearchState) (query : String)
    (retries : Int) : Option String × SearchState × Nat :=
  match lookupCache st.cache query with
  | some v => (some v, st, 0)
  | none =>
      let o := searchLoop net retries (attemptList retries)
      match o.cached with
      | some v => (o.ret, ⟨(query, v) :: st.cache⟩, o.calls)
      | none => (o.ret, st, o.calls)

/-! ## Query construction (lines 141-149) -/

/-- The part shared by both chunk requests:
`"Plan Day {start_day} to Day {end_day} of a {num_days}-day {travel_style}
trip to {destination} starting {arrival_date}"`. -/
def chunkQueryBase (numDays : Nat) (style destination arrival : String)
    (startDay endDay : Nat) : String :=
  "Plan Day " ++ toString startDay ++ " to Day " ++ toString endDay ++ " of a " ++
    toString numDays ++ "-day " ++ style ++ " trip to " ++ destination ++
    " starting " ++ arrival

/-- `query_chunk` for `i == 0` (line 146): essentials/weather included and
the search result text embedded. -/
def firstChunkQuery (numDays : Nat) (style destination arrival : String)
    (startDay endDay : Nat) (searchResults : String) : String :=
  chunkQueryBase numDays style destination arrival startDay endDay ++
    ". Include Essential Info and Weather. Use these search results:\n" ++ searchResults

/-- `query_chunk` for `i > 0` (line 149): day-by-day only, essentials and
weather excluded, no search text. -/
def laterChunkQuery (numDays : Nat) (style destination arrival : String)
    (startDay endDay : Nat) : String :=
  chunkQueryBase numDays style destination arrival startDay endDay ++
    ". Only include Day-by-Day Itinerary, skip Essential Info and Weather."

/-- The `enumerate` over day ranges in the loop at lines 141-149, carrying
the running index `i`. -/
def buildQueriesGo (numDays : Nat) (style destination arrival searchResults : String) :
    Nat → List (Nat × Nat) → List String
  | _, [] => []
  | i, r :: rs =>
      (if i = 0 then firstChunkQuery numDays style destination arrival r.1 r.2 searchResults
       else laterChunkQuery numDays style destination arrival r.1 r.2) ::
        buildQueriesGo numDays style destination arrival searchResults (i + 1) rs

/-- The full list of generation requests, one per day range. -/
def buildQueries (numDays : Nat) (style destination arrival searchResults : String) :
    List String :=
  buildQueriesGo numDays style destination arrival searchResults 0 (dayRanges numDays)

/-! ## Generation orchestrator (lines 130-163)

The language model is an oracle `model : String → Except String String`
giving, per request, the fully drained streamed text (`chunk_response`)
or the exception it raises. -/

/-- The Streamlit session state touched by generation:
`st.session_state.itinerary` and `st.session_state.full_response`
(lines 20-23, 159-160). -/
structure AppState where
  itinerary : Option String
  full_response : String
  deriving DecidableEq, Repr

/-- The chunk loop at lines 141-157 with its accumulator `full_itinerary`:
each chunk's text is appended followed by a blank line; an exception from
the model aborts the loop and propagates. -/
def runChunksAcc (model : String → Except String String) :
    List String → String → Except String String
  | [], acc => Except.ok acc
  | q :: qs, acc =>
      match model q with
      | Except.error e => Except.error e
      | Except.ok r => runChunksAcc model qs (acc ++ r ++ "\n\n")

/-- The try/except at lines 131-163: on success the session state stores the
full itinerary (lines 159-160) and no error is shown; on an exception the
session state is left untouched and `st.error` shows the single aggregate
failure message (line 163).  Returns (new session state, displayed error). -/
def runGeneration (model : String → Except String String) (queries : List String)
    (st : AppState) : AppState × Option String :=
  match runChunksAcc model queries "" with
  | Except.ok full => ({ itinerary := some full, full_response := full }, none)
  | Except.error e => (st, some ("Error during planning: " ++ e))

/-! ## Itinerary display and calendar download (lines 166-184) -/

/-- Python `str.splitlines()` boundary characters. -/
def isLineBreakChar (c : Char) : Bool :=
  c = '\n' || c = '\r' || c = '\x0b' || c = '\x0c' ||
  c = '\x1c' || c = '\x1d' || c = '\x1e' || c = '\x85' ||
  c = ' ' || c = ' '

/-- Python `str.splitlines()` over the character list (no trailing empty
line; `\r\n` counts as one boundary). -/
def splitLinesList : List Char → List (List Char)
  | [] => []
  | '\r' :: '\n' :: rest => [] :: splitLinesList rest
  | c :: rest =>
      if isLineBreakChar c then [] :: splitLinesList rest
      else
        match splitLinesList rest with
        | [] => [[c]]
        | l :: ls => (c :: l) :: ls

/-- The filtered line marker `"getFlightAvailability("` (line 168). -/
def getFlightMarker : List Char := ("getFlightAvailability(").data

/-- Split off the maximal run matched by `\S+` (greedy, at least the empty
run; callers require nonemptiness). -/
def takeNonSpace : List Char → List Char × List Char
  | [] => ([], [])
  | c :: cs =>
      if isSpaceChar c then ([], c :: cs)
      else
        let p := takeNonSpace cs
        (c :: p.1, p.2)

/-- The URL pattern `(https?://\S+)` at the head: the greedy optional `s` is
tried first, and `\S+` must capture at least one character. -/
def matchUrl : List Char → Option (List Char × List Char)
  | 'h' :: 't' :: 't' :: 'p' :: 's' :: ':' :: '/' :: '/' :: rest =>
      let p := takeNonSpace rest
      if p.1.isEmpty then none else some (("https://").data ++ p.1, p.2)
  | 'h' :: 't' :: 't' :: 'p' :: ':' :: '/' :: '/' :: rest =>
      let p := takeNonSpace rest
      if p.1.isEmpty then none else some (("http://").data ++ p.1, p.2)
  | _ => none

/-- `re.sub(r"(https?://\S+)", r"[\1](\1)", ...)` (line 170), fuel-driven
left-to-right scan (each replaced match consumes at least 8 characters). -/
def linkifyAux : Nat → List Char → List Char
  | 0, s => s
  | fuel + 1, s =>
      match s with
      | [] => []
      | c :: cs =>
          match matchUrl (c :: cs) with
          | some (url, rest) =>
              '[' :: (url ++ ']' :: '(' :: (url ++ ')' :: linkifyAux fuel rest))
          | none => c :: linkifyAux fuel cs

/-- `display_full_itinerary` (lines 166-171): drop lines whose stripped form
starts with `getFlightAvailability(`, rejoin with newlines, and wrap URLs
in Markdown links.  Returns the Markdown text passed to `st.markdown`. -/
def display_full_itinerary (itinerary_text : String) : String :=
  let lines := splitLinesList itinerary_text.data
  let filtered := lines.filter (fun l => !(List.isPrefixOf getFlightMarker (stripList l)))
  let cleanText := List.intercalate ['\n'] filtered
  String.mk (linkifyAux cleanText.length cleanText)

/-- The section at lines 174-184: when `st.session_state.itinerary` is truthy
(a nonempty string), the itinerary is displayed and `generate_ics_content`
is called on exactly that string; the download is offered only when it
returned calendar data.  Returns (displayed markdown, calendar data offered
for download, displayed warning). -/
def showSection (st : AppState) (startOrd : Int) (destination : String) :
    Option String × Option (List CalEvent) × Option String :=
  match st.itinerary with
  | none => (none, none, none)
  | some it =>
      if it = "" then (none, none, none)
      else
        let r := generate_ics_content it startOrd destination
        (some (display_full_itinerary it), r.1, r.2)

/-! ## Claims about the search client -/

/-- Helper: the attempt list for the default retry limit. -/
theorem attemptList_two : attemptList 2 = [0, 1] := by
  decide

/-- Claim C4: with the default retry limit of 2 attempts, if every attempt of
`search` fails, it returns a human-readable string that embeds the retry
count and the exception description; the model is a total function, so no
exception reaches the caller — every failure mode degrades to returned
text. -/
theorem search_all_fail_returns_text :
    ∀ (net : Nat → Except String Organic) (st : SearchState) (q e0 e1 : String),
      lookupCache st.cache q = none →
      net 0 = Except.error e0 → net 1 = Except.error e1 →
      search net st q 2 =
        (some ("Search failed after " ++ toString (2 : Int) ++ " attempts: " ++ e1), st, 2) := by
  intro net st q e0 e1 hc h0 h1
  unfold search
  rw [hc, attemptList_two]
  unfold searchLoop
  rw [h0]
  unfold searchLoop
  rw [h1]
  norm_num

/-- Witness for `search_all_fail_returns_text`: a provider failing both
attempts on an empty cache. -/
theorem search_all_fail_returns_text_witness :
    search (fun _ => Except.error ("boom")) ⟨[]⟩ ("weather") 2 =
      (some ("Search failed after " ++ toString (2 : Int) ++ " attempts: " ++ "boom"), ⟨[]⟩, 2) :=
  search_all_fail_returns_text (fun _ => Except.error ("boom")) ⟨[]⟩ ("weather")
    ("boom") ("boom") (by rfl) (by rfl) (by rfl)

/-- Claim C5: if `search` is called twice with the identical query string and
the first call succeeds, the pair performs exactly one network request: the
first call stores the normalized result under the exact query string, and the
second call (under any transport whatsoever) returns the cached text with
zero requests and an unchanged cache; entries for other queries are
untouched (no eviction). -/
theorem search_cache_single_request :
    ∀ (net net2 : Nat → Except String Organic) (st : SearchState) (q : String) (data : Organic),
      lookupCache st.cache q = none → net 0 = Except.ok data →
      search net st q 2 =
        (some (searchResultText data), ⟨(q, searchResultText data) :: st.cache⟩, 1) ∧
      search net2 ⟨(q, searchResultText data) :: st.cache⟩ q 2 =
        (some (searchResultText data), ⟨(q, searchResultText data) :: st.cache⟩, 0) ∧
      (∀ q2, q2 ≠ q →
        lookupCache ((q, searchResultText data) :: st.cache) q2 = lookupCache st.cache q2) := by
  intro net net2 st q data hc h0
  refine ⟨?_, ?_, ?_⟩
  · unfold search
    rw [hc, attemptList_two]
    unfold searchLoop
    rw [h0]
  · unfold search
    unfold lookupCache
    simp
  · intro q2 hne
    simp [lookupCache, Ne.symm hne]

/-- Witness for `search_cache_single_request`: a transport succeeding with
one organic result on an empty cache. -/
theorem search_cache_single_request_witness :
    search (fun _ => Except.ok (some [("t", "s", "l")])) ⟨[]⟩ ("attractions") 2 =
      (some (searchResultText (some [("t", "s", "l")])),
       ⟨[("attractions", searchResultText (some [("t", "s", "l")]))]⟩, 1) :=
  (search_cache_single_request (fun _ => Except.ok (some [("t", "s", "l")]))
    (fun _ => Except.error ("down")) ⟨[]⟩ ("attractions") (some [("t", "s", "l")])
    (by rfl) (by rfl)).1

/-- Helper: the attempt loop returns a value whenever the attempt list
reaches the final index `retries - 1`. -/
theorem searchLoop_ret_isSome (net : Nat → Except String Organic) (retries : Int) :
    ∀ attempts : List Nat, (∃ a ∈ attempts, (a : Int) = retries - 1) →
      ((searchLoop net retries attempts).ret).isSome = true := by
  intro attempts
  induction attempts with
  | nil => rintro ⟨a, ha, _⟩; cases ha
  | cons a rest ih =>
      rintro ⟨b, hb, hbeq⟩
      unfold searchLoop
      cases hnet : net a with
      | ok organic => simp
      | error e =>
          by_cases hlast : (a : Int) = retries - 1
          · simp [hlast]
          · simp only [hlast, if_false]
            apply ih
            refine ⟨b, ?_, hbeq⟩
            cases List.mem_cons.mp hb with
            | inl h =>
                exact absurd (h ▸ hbeq) hlast
            | inr h => exact h

/-- Claim C9: for any `retries ≤ 0`, `search` on a cache miss executes the
retry loop zero times and implicitly returns Python `None` (`none`) rather
than a string, with zero network requests; conversely, whenever
`retries ≥ 1`, `search` always returns a string, so the "always returns
text" contract holds exactly under the precondition `retries ≥ 1`. -/
theorem search_nonpositive_retries_returns_none :
    (∀ (net : Nat → Except String Organic) (st : SearchState) (q : String) (retries : Int),
       retries ≤ 0 → lookupCache st.cache q = none →
       search net st q retries = (none, st, 0)) ∧
    (∀ (net : Nat → Except String Organic) (st : SearchState) (q : String) (retries : Int),
       1 ≤ retries → ((search net st q retries).1).isSome = true) := by
  constructor
  · intro net st q retries hr hc
    unfold search
    rw [hc]
    have hempty : attemptList retries = [] := by
      unfold attemptList
      have : retries.toNat = 0 := by omega
      rw [this]
      rfl
    rw [hempty]
    rfl
  · intro net st q retries hr
    unfold search
    cases hc : lookupCache st.cache q with
    | some v => rfl
    | none =>
        have hsome : ((searchLoop net retries (attemptList retries)).ret).isSome = true := by
          apply searchLoop_ret_isSome
          refine ⟨retries.toNat - 1, ?_, ?_⟩
          · unfold attemptList
            apply List.mem_range.mpr
            omega
          · omega
        cases hcache : (searchLoop net retries (attemptList retries)).cached <;>
          simpa [hcache] using hsome

/-- Witness for `search_nonpositive_retries_returns_none`: zero retries on a
cache miss return `none` with no requests, and one retry always returns a
string. -/
theorem search_nonpositive_retries_returns_none_witness :
    search (fun _ => Except.error ("down")) ⟨[]⟩ ("q") 0 = (none, ⟨[]⟩, 0) ∧
    ((search (fun _ => Except.error ("down")) ⟨[]⟩ ("q") 1).1).isSome = true :=
  ⟨search_nonpositive_retries_returns_none.1 (fun _ => Except.error ("down")) ⟨[]⟩ ("q") 0
     (by decide) (by rfl),
   search_nonpositive_retries_returns_none.2 (fun _ => Except.error ("down")) ⟨[]⟩ ("q") 1
     (by decide)⟩

/-! ## Claims about the orchestrator -/

/-- Claim C3: if the language-model invocation raises for any chunk, the whole
generation aborts with a single aggregate failure message, the partial text
accumulated for earlier chunks is discarded, and the session's stored
itinerary is left unchanged; in particular a model failing on chunk 2 of 2
leaves the state untouched and, when no itinerary was stored before, nothing
is displayed and no calendar is offered. -/
theorem generation_atomic :
    (∀ (model : String → Except String String) (queries : List String) (st : AppState)
        (e : String),
        runChunksAcc model queries ("") = Except.error e →
        runGeneration model queries st = (st, some ("Error during planning: " ++ e))) ∧
    (∀ (model : String → Except String String) (q1 q2 r e : String) (st : AppState),
        model q1 = Except.ok r → model q2 = Except.error e →
        runGeneration model [q1, q2] st = (st, some ("Error during planning: " ++ e))) ∧
    (∀ (model : String → Except String String) (q1 q2 r e : String) (st : AppState)
        (startOrd : Int) (destination : String),
        st.itinerary = none → model q1 = Except.ok r → model q2 = Except.error e →
        showSection (runGeneration model [q1, q2] st).1 startOrd destination =
          (none, none, none)) := by
  have habort : ∀ (model : String → Except String String) (q1 q2 r e : String),
      model q1 = Except.ok r → model q2 = Except.error e →
      runChunksAcc model [q1, q2] ("") = Except.error e := by
    intro model q1 q2 r e h1 h2
    unfold runChunksAcc
    rw [h1]
    unfold runChunksAcc
    rw [h2]
  have hgen : ∀ (model : String → Except String String) (queries : List String) (st : AppState)
      (e : String),
      runChunksAcc model queries ("") = Except.error e →
      runGeneration model queries st = (st, some ("Error during planning: " ++ e)) := by
    intro model queries st e h
    unfold runGeneration
    rw [h]
  refine ⟨hgen, ?_, ?_⟩
  · intro model q1 q2 r e st h1 h2
    exact hgen model [q1, q2] st e (habort model q1 q2 r e h1 h2)
  · intro model q1 q2 r e st startOrd destination hnone h1 h2
    rw [hgen model [q1, q2] st e (habort model q1 q2 r e h1 h2)]
    unfold showSection
    rw [hnone]

/-- Witness for `generation_atomic`: a two-chunk run whose second chunk
raises leaves an empty session untouched and surfaces one aggregate error. -/
theorem generation_atomic_witness :
    runGeneration (fun q => if q = ("a") then Except.ok ("partial text") else Except.error ("boom"))
        [("a"), ("b")] ⟨none, ("")⟩ =
      (⟨none, ("")⟩, some ("Error during planning: " ++ "boom")) :=
  generation_atomic.2.1 (fun q => if q = ("a") then Except.ok ("partial text") else Except.error ("boom"))
    ("a") ("b") ("partial text") ("boom") ⟨none, ("")⟩ (by rfl) (by rfl)

/-- In-order concatenation of the chunk texts, each followed by the
blank-line separator the loop appends (line 157). -/
def concatChunks : List String → String
  | [] => ""
  | r :: rs => r ++ "\n\n" ++ concatChunks rs

/-- Helper: when every chunk succeeds, the accumulator loop returns the
accumulated prefix followed by the in-order concatenation. -/
theorem runChunksAcc_ok (model : String → Except String String) :
    ∀ (queries rs : List String),
      List.Forall₂ (fun q r => model q = Except.ok r) queries rs →
      ∀ acc : String, runChunksAcc model queries acc = Except.ok (acc ++ concatChunks rs) := by
  intro queries rs h
  induction h with
  | nil => intro acc; simp [runChunksAcc, concatChunks]
  | cons hqr htail ih =>
      intro acc
      simp only [runChunksAcc, hqr]
      rw [ih]
      simp only [concatChunks, String.append_assoc]

/-- Claim C7: when every chunk succeeds, the full itinerary string stored in
the session equals the in-order concatenation of the per-chunk response
texts, each followed by a blank-line separator — no reordering, no loss —
and calendar extraction is later given exactly this string. -/
theorem itinerary_concat_roundtrip :
    ∀ (model : String → Except String String) (queries rs : List String) (st : AppState)
      (startOrd : Int) (destination : String),
      List.Forall₂ (fun q r => model q = Except.ok r) queries rs →
      runGeneration model queries st =
        ({ itinerary := some (concatChunks rs), full_response := concatChunks rs }, none) ∧
      (concatChunks rs ≠ "" →
        (showSection (runGeneration model queries st).1 startOrd destination).2.1 =
          (generate_ics_content (concatChunks rs) startOrd destination).1) := by
  intro model queries rs st startOrd destination h
  have hrun : runGeneration model queries st =
      ({ itinerary := some (concatChunks rs), full_response := concatChunks rs }, none) := by
    unfold runGeneration
    rw [runChunksAcc_ok model queries rs h ("")]
    rw [String.empty_append]
  refine ⟨hrun, ?_⟩
  intro hne
  rw [hrun]
  unfold showSection
  simp only [if_neg hne]

/-- Witness for `itinerary_concat_roundtrip`: two successful chunks produce
exactly their ordered concatenation with blank-line separators. -/
theorem itinerary_concat_roundtrip_witness :
    runGeneration (fun q => if q = ("a") then Except.ok ("A") else Except.ok ("B"))
        [("a"), ("b")] ⟨none, ("")⟩ =
      (⟨some (concatChunks [("A"), ("B")]), concatChunks [("A"), ("B")]⟩, none) :=
  (itinerary_concat_roundtrip (fun q => if q = ("a") then Except.ok ("A") else Except.ok ("B"))
    [("a"), ("b")] [("A"), ("B")] ⟨none, ("")⟩ 0 ("X")
    (List.Forall₂.cons (by rfl) (List.Forall₂.cons (by rfl) List.Forall₂.nil))).1

/-! ## Claims about query construction -/

/-- Helper: indexing the enumerated query builder. -/
theorem buildQueriesGo_get (numDays : Nat) (style destination arrival searchResults : String) :
    ∀ (rs : List (Nat × Nat)) (i0 j : Nat),
      (buildQueriesGo numDays style destination arrival searchResults i0 rs).get? j =
        (rs.get? j).map (fun r =>
          if i0 + j = 0 then
            firstChunkQuery numDays style destination arrival r.1 r.2 searchResults
          else laterChunkQuery numDays style destination arrival r.1 r.2) := by
  intro rs
  induction rs with
  | nil => intro i0 j; simp [buildQueriesGo]
  | cons r rest ih =>
      intro i0 j
      cases j with
      | zero => simp [buildQueriesGo]
      | succ j =>
          have harith : i0 + 1 + j = i0 + (j + 1) := by omega
          simp only [buildQueriesGo, List.get?_cons_succ]
          rw [ih (i0 + 1) j, harith]

/-- Claim C6: the generation request built for the first day range (and only
the first) instructs inclusion of trip essentials and weather and embeds the
search client's result text as a suffix (the empty string when search was
skipped); the request for every subsequent range instructs exclusion of
essentials/weather with day-by-day content only, and is independent of the
search text (the same request is built whatever that text is). -/
theorem query_construction :
    (∀ (numDays : Nat) (style destination arrival searchResults q : String),
        (buildQueries numDays style destination arrival searchResults).get? 0 = some q →
        ∃ p : String,
          q = p ++ ". Include Essential Info and Weather. Use these search results:\n" ++
            searchResults) ∧
    (∀ (numDays : Nat) (style destination arrival searchResults : String) (i : Nat) (q : String),
        1 ≤ i →
        (buildQueries numDays style destination arrival searchResults).get? i = some q →
        (∃ p : String,
          q = p ++ ". Only include Day-by-Day Itinerary, skip Essential Info and Weather.") ∧
        (∀ other : String,
          (buildQueries numDays style destination arrival other).get? i = some q)) := by
  constructor
  · intro numDays style destination arrival searchResults q h
    unfold buildQueries at h
    rw [buildQueriesGo_get] at h
    cases hr : (dayRanges numDays).get? 0 with
    | none => rw [hr] at h; cases h
    | some r =>
        rw [hr, Option.map_some'] at h
        rw [if_pos (show 0 + 0 = 0 from rfl)] at h
        rw [Option.some_inj] at h
        exact ⟨chunkQueryBase numDays style destination arrival r.1 r.2, h.symm⟩
  · intro numDays style destination arrival searchResults i q hi h
    unfold buildQueries at h
    rw [buildQueriesGo_get] at h
    cases hr : (dayRanges numDays).get? i with
    | none => rw [hr] at h; cases h
    | some r =>
        rw [hr, Option.map_some'] at h
        rw [if_neg (show ¬(0 + i = 0) by omega)] at h
        rw [Option.some_inj] at h
        constructor
        · exact ⟨chunkQueryBase numDays style destination arrival r.1 r.2, h.symm⟩
        · intro other
          unfold buildQueries
          rw [buildQueriesGo_get, hr, Option.map_some',
            if_neg (show ¬(0 + i = 0) by omega), h]

/-- Witness for `query_construction`: the second request of a 5-day trip ends
with the exclusion instruction. -/
theorem query_construction_witness :
    ∃ p : String,
      laterChunkQuery 5 ("Balanced") ("Tokyo") ("2026-03-24") 4 5 =
        p ++ ". Only include Day-by-Day Itinerary, skip Essential Info and Weather." :=
  ((query_construction.2 5 ("Balanced") ("Tokyo") ("2026-03-24") ("results") 1
    (laterChunkQuery 5 ("Balanced") ("Tokyo") ("2026-03-24") 4 5)
    (by decide) (by rfl)).1)

/-! ## Claims about calendar extraction -/

/-- Helper: inversion of a successfully built event. -/
theorem mkEvent_ok {startOrd : Int} {destination : String} {m : List Char × List Char}
    {ev : CalEvent} (h : mkEvent startOrd destination m = Except.ok ev) :
    ev.dtstart = startOrd + ((digitsVal m.1 : Int) - 1) ∧
    ev.dtend = ev.dtstart + 1 ∧
    ev.description = String.mk (stripList m.2) ∧
    ev.summary = "Day " ++ String.mk m.1 ++ " in " ++ destination := by
  simp only [mkEvent] at h
  split at h
  · cases h
  · split at h
    · cases h
    · rw [Except.ok.injEq] at h
      subst h
      refine ⟨rfl, ?_, rfl, rfl⟩
      show startOrd + (digitsVal m.1 : Int) = startOrd + ((digitsVal m.1 : Int) - 1) + 1
      omega

/-- Helper: a successful event loop yields one event per match, in order,
each built by `mkEvent` from the corresponding match. -/
theorem buildEvents_ok_get (startOrd : Int) (destination : String) :
    ∀ (ms : List (List Char × List Char)) (evs : List CalEvent),
      buildEvents startOrd destination ms = Except.ok evs →
      evs.length = ms.length ∧
      ∀ i (hi : i < evs.length) (hj : i < ms.length),
        mkEvent startOrd destination (ms.get ⟨i, hj⟩) = Except.ok (evs.get ⟨i, hi⟩) := by
  intro ms
  induction ms with
  | nil =>
      intro evs h
      simp only [buildEvents, Except.ok.injEq] at h
      subst h
      exact ⟨rfl, fun i hi hj => absurd hj (by simp)⟩
  | cons m rest ih =>
      intro evs h
      simp only [buildEvents] at h
      cases hm : mkEvent startOrd destination m with
      | error e =>
          simp only [hm] at h
          exact Except.noConfusion h
      | ok ev =>
          simp only [hm] at h
          cases hrest : buildEvents startOrd destination rest with
          | error e =>
              simp only [hrest] at h
              exact Except.noConfusion h
          | ok evs2 =>
              simp only [hrest, Except.ok.injEq] at h
              subst h
              obtain ⟨hlen, hget⟩ := ih evs2 hrest
              refine ⟨by simp [hlen], ?_⟩
              intro i hi hj
              cases i with
              | zero => simpa using hm
              | succ i =>
                  simpa using hget i (by simpa using hi) (by simpa using hj)

/-- Helper: a text with no day marker anywhere yields no match, whatever the
fuel. -/
theorem findDaysAux_no_marker : ∀ (fuel : Nat) (s : List Char),
    hasMarker s = false → findDaysAux fuel s = [] := by
  intro fuel
  induction fuel with
  | zero => intro s h; rfl
  | succ fuel ih =>
      intro s h
      cases s with
      | nil => rfl
      | cons c cs =>
          simp only [hasMarker, Bool.or_eq_false_iff] at h
          simp only [findDaysAux]
          cases hm : matchMarker (c :: cs) with
          | some p =>
              rw [hm] at h
              simp at h
          | none =>
              simp only [hm]
              exact ih cs h.2

/-- Claim C2: calendar extraction emits exactly one event per day-marker
match, in match order; the event for the match with day number `k` has start
date `startDate + (k - 1)` days, end date one day later, the trimmed captured
span as description, and a summary carrying the captured day number and the
destination; an input with no `Day N` markers yields a calendar with zero
events, not an error; on `"Day 1: Visit museum\nDay 2: Relax"` with start
date 2026-03-10 this gives exactly the two events 2026-03-10/11 and
2026-03-11/12. -/
theorem extraction_event_per_match :
    (∀ (plan : String) (startOrd : Int) (destination : String) (evs : List CalEvent),
        buildEvents startOrd destination (findDays plan.data) = Except.ok evs →
        evs.length = (findDays plan.data).length ∧
        ∀ i (hi : i < evs.length) (hj : i < (findDays plan.data).length),
          (evs.get ⟨i, hi⟩).dtstart =
            startOrd + ((digitsVal ((findDays plan.data).get ⟨i, hj⟩).1 : Int) - 1) ∧
          (evs.get ⟨i, hi⟩).dtend = (evs.get ⟨i, hi⟩).dtstart + 1 ∧
          (evs.get ⟨i, hi⟩).description =
            String.mk (stripList ((findDays plan.data).get ⟨i, hj⟩).2) ∧
          (evs.get ⟨i, hi⟩).summary =
            "Day " ++ String.mk ((findDays plan.data).get ⟨i, hj⟩).1 ++ " in " ++ destination) ∧
    (∀ plan : List Char, hasMarker plan = false → findDays plan = []) ∧
    generate_ics_content ("Day 1: Visit museum\nDay 2: Relax") (pyOrd 2026 3 10) ("Paris") =
      (some [⟨"Day 1 in Paris", "Visit museum", pyOrd 2026 3 10, pyOrd 2026 3 11⟩,
             ⟨"Day 2 in Paris", "Relax", pyOrd 2026 3 11, pyOrd 2026 3 12⟩], none) := by
  refine ⟨?_, ?_, ?_⟩
  · intro plan startOrd destination evs h
    obtain ⟨hlen, hget⟩ := buildEvents_ok_get startOrd destination (findDays plan.data) evs h
    exact ⟨hlen, fun i hi hj => mkEvent_ok (hget i hi hj)⟩
  · intro plan h
    exact findDaysAux_no_marker plan.length plan h
  · rfl

/-- Witness for `extraction_event_per_match`: the counted correspondence on
the two-day example, and the empty match list on marker-free text. -/
theorem extraction_event_per_match_witness :
    ([⟨"Day 1 in Paris", "Visit museum", pyOrd 2026 3 10, pyOrd 2026 3 11⟩,
      ⟨"Day 2 in Paris", "Relax", pyOrd 2026 3 11, pyOrd 2026 3 12⟩] : List CalEvent).length =
      (findDays ("Day 1: Visit museum\nDay 2: Relax").data).length ∧
    findDays ("No markers in this text.").data = [] :=
  ⟨(extraction_event_per_match.1 ("Day 1: Visit museum\nDay 2: Relax") (pyOrd 2026 3 10)
      ("Paris")
      [⟨"Day 1 in Paris", "Visit museum", pyOrd 2026 3 10, pyOrd 2026 3 11⟩,
       ⟨"Day 2 in Paris", "Relax", pyOrd 2026 3 11, pyOrd 2026 3 12⟩] (by rfl)).1,
   extraction_event_per_match.2.1 (("No markers in this text.").data) (by rfl)⟩

/-- Claim C8: any exception during extraction (such as date arithmetic
overflowing the Python date range) makes `generate_ics_content` abort the
whole extraction and return no calendar data, reporting the cause as a
warning, while the itinerary display is unaffected — only the calendar
download is withheld.  The concrete input `"Day 999999999: rest"` triggers
exactly this. -/
theorem ics_failure_withheld :
    (∀ (plan : String) (startOrd : Int) (destination e : String),
        buildEvents startOrd destination (findDays plan.data) = Except.error e →
        generate_ics_content plan startOrd destination =
          (none, some ("ICS generation failed: " ++ e))) ∧
    (∀ (st : AppState) (it : String) (startOrd : Int) (destination : String),
        st.itinerary = some it → it ≠ "" →
        (showSection st startOrd destination).1 = some (display_full_itinerary it)) ∧
    generate_ics_content ("Day 999999999: rest") (pyOrd 2026 3 10) ("Paris") =
      (none, some ("ICS generation failed: " ++ "date value out of range")) ∧
    showSection ⟨some ("Day 999999999: rest"), ("Day 999999999: rest")⟩ (pyOrd 2026 3 10)
        ("Paris") =
      (some (display_full_itinerary ("Day 999999999: rest")), none,
       some ("ICS generation failed: " ++ "date value out of range")) := by
  refine ⟨?_, ?_, ?_, ?_⟩
  · intro plan startOrd destination e h
    simp only [generate_ics_content, h]
  · intro st it startOrd destination hit hne
    unfold showSection
    rw [hit]
    simp only [if_neg hne]
  · rfl
  · rfl

/-- Witness for `ics_failure_withheld`: the overflowing day number yields no
calendar data and the warning carrying the cause. -/
theorem ics_failure_withheld_witness :
    generate_ics_content ("Day 999999999: x") (pyOrd 2026 3 10) ("Rome") =
      (none, some ("ICS generation failed: " ++ "date value out of range")) :=
  ics_failure_withheld.1 ("Day 999999999: x") (pyOrd 2026 3 10) ("Rome")
    ("date value out of range") (by rfl)

/-- Claim C10: the day-marker regular expression has no word boundary before
`Day`, so any case-insensitive substring `day` followed by optional
whitespace and digits starts a new event: `"Sunday 5: rest"` yields exactly
one calendar event, for day 5 (start 2026-03-14, end 2026-03-15 from start
date 2026-03-10), although the text has no standalone `Day N` heading. -/
theorem day_marker_no_word_boundary :
    findDays ("Sunday 5: rest").data = [(['5'], ("rest").data)] ∧
    generate_ics_content ("Sunday 5: rest") (pyOrd 2026 3 10) ("Paris") =
      (some [⟨"Day 5 in Paris", "rest", pyOrd 2026 3 14, pyOrd 2026 3 15⟩], none) := by
  exact ⟨rfl, rfl⟩
